import Mathlib

/-
Verification of the `events` package: an in-process publish/subscribe event
dispatcher (event values, configuration, dispatcher registration/dispatch,
and the package-wide facade indirection).

Modelling conventions for the shallow embedding:
- `EventId` is a string, as in the source (`type EventId string`).
- Go `any` payloads are modelled by a type parameter on `Event`.
- Listeners are Go function values `func(Event)`; the embedding tracks them
  by identity (a natural number) and records every invocation or goroutine
  launch performed by a dispatch in an explicit trace, so that facts about
  which listeners run, how often and in which order become statements about
  that trace.
- `sync.WaitGroup` values are tracked by identity: handles the package
  allocates itself with `new(sync.WaitGroup)` are numbered by an allocator
  counter held in the package state, handles supplied by callers are marked
  external.  The two kinds are never equal (distinct addresses).
- The package-level mutable variable `facade` and the allocator live in an
  explicit `PkgState` record threaded through the functions that touch them.
- Go methods that mutate their receiver in place return the updated value
  here; methods returning `error` pair the updated value with an
  `Option AsyncConfigError` (`none` is a nil error); the package-level
  `Register`/`Dispatch` functions, which may call `panic`, return a
  `GoResult` that is either a value or a panic with its message.
-/

namespace Events

/-- EventId identifies events (Go: `type EventId string`). -/
abbrev EventId := String

/-- Listener is a Go function value `func(Event)`, tracked by identity. -/
abbrev Listener := Nat

/-- Event wraps an event ID and any data that may be passed to the listeners
(Go struct with fields `id EventId` and `data any`). -/
structure Event (α : Type) where
  id : EventId
  data : α
deriving DecidableEq

/-- Go: `func Make(id EventId, data any) Event { return Event{id, data} }`. -/
def Make {α : Type} (id : EventId) (data : α) : Event α :=
  { id := id, data := data }

/-- Go: `func (event Event) Get() any { return event.data }`. -/
def Event.Get {α : Type} (event : Event α) : α :=
  event.data

/-- Identity of a `sync.WaitGroup`: internally allocated handles are numbered
by the allocator in `PkgState`; handles supplied by callers are external. -/
inductive WaitGroup where
  | internal (k : Nat)
  | external (n : Nat)
deriving DecidableEq

/-- Config holds config information for a Dispatcher (Go struct `Config`);
`waitGroup` can be nil (`none`). -/
structure Config where
  isAsync : Bool
  isFacade : Bool
  shouldWait : Bool
  waitGroup : Option WaitGroup
deriving DecidableEq

/-- Go: `newDefaultConfig` builds a new config struct instance. -/
def newDefaultConfig : Config :=
  { isAsync := false, isFacade := false, shouldWait := true, waitGroup := none }

/-- Go: `func (config *Config) ShouldAsync(shouldAsync bool) *Config`. -/
def Config.ShouldAsync (config : Config) (shouldAsync : Bool) : Config :=
  { config with isAsync := shouldAsync }

/-- Go: `func (config *Config) AsFacade(isFacade bool) *Config`. -/
def Config.AsFacade (config : Config) (isFacade : Bool) : Config :=
  { config with isFacade := isFacade }

/-- AsyncConfigError can be found when there is an error setting up a
dispatcher (Go struct with a `message` field). -/
structure AsyncConfigError where
  message : String
deriving DecidableEq

/-- The message text passed to `newAsyncConfigError` inside `ShouldWait`. -/
def asyncConfigErrorText : String :=
  "When waiting for goroutines is managed outside the package, a `sync.waitGroup` instance should be provided"

/-- Go: `newAsyncConfigError` creates a new AsyncConfigError. -/
def newAsyncConfigError (text : String) : AsyncConfigError :=
  { message := text }

/-- Go: `func (err *AsyncConfigError) Error() string`. -/
def AsyncConfigError.Error (err : AsyncConfigError) : String :=
  err.message

/-- Go: `func (config *Config) ShouldWait(shouldWait bool, waitGroup *sync.WaitGroup) error`.
If `!shouldWait && waitGroup == nil` it returns a new AsyncConfigError without
touching the receiver; otherwise it stores both fields and returns nil.  The
result pairs the receiver after the call with the returned error. -/
def Config.ShouldWait (config : Config) (shouldWait : Bool) (waitGroup : Option WaitGroup) :
    Config × Option AsyncConfigError :=
  if shouldWait = false ∧ waitGroup = none then
    (config, some (newAsyncConfigError asyncConfigErrorText))
  else
    ({ config with shouldWait := shouldWait, waitGroup := waitGroup }, none)

/-- One call on the public configuration surface.  A configurator passed to
`NewDispatcher` is a Go `func(*Config)`: it returns nothing, so an error
returned by `ShouldWait` inside it is discarded. -/
inductive ConfigOp where
  | shouldAsync (b : Bool)
  | asFacade (b : Bool)
  | shouldWait (b : Bool) (wg : Option WaitGroup)
deriving DecidableEq

/-- Effect of one configuration call on the config (errors discarded, as in a
Go configurator whose body ignores the `error` result). -/
def Config.applyOp (config : Config) (op : ConfigOp) : Config :=
  match op with
  | .shouldAsync b => config.ShouldAsync b
  | .asFacade b => config.AsFacade b
  | .shouldWait b wg => (config.ShouldWait b wg).1

/-- A configurator `func(*Config)` modelled as the sequence of configuration
calls its body performs on the shared config. -/
abbrev Configurer := List ConfigOp

/-- Runs one configurator body on the config. -/
def Config.applyConfigurer (config : Config) (configurer : Configurer) : Config :=
  configurer.foldl Config.applyOp config

/-- Runs every configurator in order, as the loop in `NewDispatcher` does;
later configurators observe the mutations of earlier ones. -/
def Config.applyConfigurers (config : Config) (configurers : List Configurer) : Config :=
  configurers.foldl Config.applyConfigurer config

/-- Go `map[EventId][]Listener`, modelled as an association list: `Register`
and `Dispatch` access the map only through lookup and per-key store. -/
abbrev ListenerMap := List (EventId × List Listener)

/-- Map indexing, `listeners, ok := m[id]` (`none` is `ok == false`). -/
def mapLookup (m : ListenerMap) (id : EventId) : Option (List Listener) :=
  match m with
  | [] => none
  | (key, value) :: rest => if key = id then some value else mapLookup rest id

/-- Map assignment `m[id] = value`. -/
def mapStore (m : ListenerMap) (id : EventId) (value : List Listener) : ListenerMap :=
  match m with
  | [] => [(id, value)]
  | (key, old) :: rest =>
      if key = id then (key, value) :: rest else (key, old) :: mapStore rest id value

/-- Dispatcher stores the map of event IDs and their listeners, the config and
its `sync.WaitGroup` (never nil after construction). -/
structure Dispatcher where
  listeners : ListenerMap
  config : Config
  waitGroup : WaitGroup
deriving DecidableEq

/-- The package-level mutable state: the facade slot (Go `var facade
*Dispatcher`, nil when the package is loaded) together with the allocator
numbering the WaitGroup handles the package creates with
`new(sync.WaitGroup)`. -/
structure PkgState where
  facade : Option Dispatcher
  nextWaitGroup : Nat
deriving DecidableEq

/-- Package state right after loading: empty facade slot, fresh allocator. -/
def initialState : PkgState :=
  { facade := none, nextWaitGroup := 0 }

/-- Go: `func NewDispatcher(configurers ...func(*Config)) *Dispatcher`.
Builds a default config, applies every configurator in order, takes the
config's WaitGroup or allocates a fresh one when it is nil, builds the
dispatcher with an empty listener map, publishes it in the facade slot when
`config.isFacade`, and returns it.  The Go signature has no error result. -/
def NewDispatcher (configurers : List Configurer) (st : PkgState) : Dispatcher × PkgState :=
  let config := newDefaultConfig.applyConfigurers configurers
  let allocated :=
    match config.waitGroup with
    | some wg => (wg, st)
    | none =>
        (WaitGroup.internal st.nextWaitGroup,
          { st with nextWaitGroup := st.nextWaitGroup + 1 })
  let dispatcher : Dispatcher :=
    { listeners := [], config := config, waitGroup := allocated.1 }
  let st2 :=
    if config.isFacade then { allocated.2 with facade := some dispatcher } else allocated.2
  (dispatcher, st2)

/-- Go: `func (dispatcher *Dispatcher) Register(id EventId, listener Listener) *Dispatcher`.
Appends to an existing slice when the key is present, otherwise creates a
one-element slice; returns the receiver. -/
def Dispatcher.Register (dispatcher : Dispatcher) (id : EventId) (listener : Listener) :
    Dispatcher :=
  match mapLookup dispatcher.listeners id with
  | some listeners =>
      { dispatcher with listeners := mapStore dispatcher.listeners id (listeners ++ [listener]) }
  | none =>
      { dispatcher with listeners := mapStore dispatcher.listeners id [listener] }

/-- One observable step of a dispatch: a synchronous listener invocation
(`listener(event)`), or the launch of a listener goroutine by
`dispatchAsync` (which does `waitGroup.Add(1)` and runs the listener in a
goroutine that calls `waitGroup.Done()` when finished). -/
inductive TraceEntry (α : Type) where
  | invoke (listener : Listener) (event : Event α)
  | spawn (listener : Listener) (event : Event α)
deriving DecidableEq

/-- Go: `func (dispatcher *Dispatcher) Dispatch(event Event) *Dispatcher`.
Looks the event's id up; when absent or mapped to a length-zero slice it
returns at once.  Otherwise it walks the slice in order, invoking each
listener inline or through `dispatchAsync` depending on `config.isAsync`,
then (when `config.shouldWait`) blocks on `waitGroup.Wait()` — the wait
touches none of the modelled state.  The result pairs the returned
dispatcher with the trace of listener invocations and goroutine launches. -/
def Dispatcher.Dispatch {α : Type} (dispatcher : Dispatcher) (event : Event α) :
    Dispatcher × List (TraceEntry α) :=
  match mapLookup dispatcher.listeners event.id with
  | none => (dispatcher, [])
  | some listeners =>
      if listeners.length = 0 then (dispatcher, [])
      else
        (dispatcher,
          listeners.map fun listener =>
            if dispatcher.config.isAsync then .spawn listener event else .invoke listener event)

/-- Result of a Go call that may panic. -/
inductive GoResult (α : Type) where
  | ok (value : α)
  | panicked (message : String)
deriving DecidableEq

/-- The string passed to `panic` by the package-level `Register` and
`Dispatch` when no facade is configured. -/
def noFacadeMessage : String :=
  "No facade registered"

/-- Go package-level `func Register(id EventId, listener Listener) *Dispatcher`:
panics when `facade == nil`, otherwise returns `facade.Register(id, listener)`.
The facade slot keeps pointing at the dispatcher it mutated. -/
def Register (st : PkgState) (id : EventId) (listener : Listener) :
    GoResult (Dispatcher × PkgState) :=
  match st.facade with
  | none => .panicked noFacadeMessage
  | some d =>
      let d2 := d.Register id listener
      .ok (d2, { st with facade := some d2 })

/-- Go package-level `func Dispatch(event Event) *Dispatcher`: panics when
`facade == nil`, otherwise returns `facade.Dispatch(event)` (paired with its
trace); the facade slot keeps pointing at the dispatcher. -/
def Dispatch {α : Type} (st : PkgState) (event : Event α) :
    GoResult ((Dispatcher × List (TraceEntry α)) × PkgState) :=
  match st.facade with
  | none => .panicked noFacadeMessage
  | some d =>
      let r := d.Dispatch event
      .ok (r, { st with facade := some r.1 })

/-- A sequence of `Register` calls for the same event id, oldest first. -/
def Dispatcher.registerAll (dispatcher : Dispatcher) (id : EventId) (ls : List Listener) :
    Dispatcher :=
  ls.foldl (fun acc listener => acc.Register id listener) dispatcher

/-- Dispatchers reachable through the public operations: constructed by
`NewDispatcher` from any state, then modified by any `Register` and
`Dispatch` calls. -/
inductive Reachable : Dispatcher → Prop where
  | new (configurers : List Configurer) (st : PkgState) :
      Reachable (NewDispatcher configurers st).1
  | register (d : Dispatcher) (id : EventId) (listener : Listener) :
      Reachable d → Reachable (d.Register id listener)
  | dispatch {α : Type} (d : Dispatcher) (event : Event α) :
      Reachable d → Reachable (d.Dispatch event).1

/-- An event id from the package's tests, used by concrete witnesses. -/
def eventA : EventId :=
  "event a"

/-! ### Lemmas about the listener map and the dispatcher operations -/

theorem mapLookup_mapStore_self (m : ListenerMap) (id : EventId) (value : List Listener) :
    mapLookup (mapStore m id value) id = some value := by
  induction m with
  | nil => simp [mapStore, mapLookup]
  | cons head rest ih =>
      obtain ⟨key, old⟩ := head
      by_cases h : key = id <;> simp [mapStore, mapLookup, h, ih]

theorem Register_config (d : Dispatcher) (id : EventId) (listener : Listener) :
    (d.Register id listener).config = d.config := by
  cases h : mapLookup d.listeners id <;> simp [Dispatcher.Register, h]

theorem Register_lookup_self (d : Dispatcher) (id : EventId) (listener : Listener) :
    mapLookup (d.Register id listener).listeners id =
      some ((mapLookup d.listeners id).getD [] ++ [listener]) := by
  cases h : mapLookup d.listeners id <;>
    simp [Dispatcher.Register, h, mapLookup_mapStore_self]

theorem registerAll_lookup_of_some (id : EventId) (ls : List Listener) (d : Dispatcher)
    (old : List Listener) (h : mapLookup d.listeners id = some old) :
    mapLookup (d.registerAll id ls).listeners id = some (old ++ ls) := by
  induction ls generalizing d old with
  | nil => simpa [Dispatcher.registerAll] using h
  | cons l rest ih =>
      have h2 : mapLookup (d.Register id l).listeners id = some (old ++ [l]) := by
        simp [Register_lookup_self, h]
      have h3 := ih (d.Register id l) (old ++ [l]) h2
      simpa [Dispatcher.registerAll] using h3

theorem registerAll_lookup_of_none (id : EventId) (ls : List Listener) (d : Dispatcher)
    (h : mapLookup d.listeners id = none) :
    mapLookup (d.registerAll id ls).listeners id = if ls = [] then none else some ls := by
  cases ls with
  | nil => simpa [Dispatcher.registerAll] using h
  | cons l rest =>
      have h2 : mapLookup (d.Register id l).listeners id = some [l] := by
        simp [Register_lookup_self, h]
      have h3 := registerAll_lookup_of_some id rest (d.Register id l) [l] h2
      simpa [Dispatcher.registerAll] using h3

theorem registerAll_config (id : EventId) (ls : List Listener) (d : Dispatcher) :
    (d.registerAll id ls).config = d.config := by
  induction ls generalizing d with
  | nil => rfl
  | cons l rest ih =>
      have h := ih (d.Register id l)
      simpa [Dispatcher.registerAll, Register_config] using h

theorem Dispatch_fst {α : Type} (d : Dispatcher) (event : Event α) :
    (d.Dispatch event).1 = d := by
  unfold Dispatcher.Dispatch
  cases mapLookup d.listeners event.id with
  | none => rfl
  | some listeners => by_cases h : listeners.length = 0 <;> simp [h]

theorem newDispatcher_listeners (configurers : List Configurer) (st : PkgState) :
    (NewDispatcher configurers st).1.listeners = [] := by
  unfold NewDispatcher
  cases h : (newDefaultConfig.applyConfigurers configurers).waitGroup <;> simp [h]

theorem mapLookup_mapStore_of_ne (m : ListenerMap) (id key : EventId)
    (value : List Listener) (h : key ≠ id) :
    mapLookup (mapStore m id value) key = mapLookup m key := by
  induction m with
  | nil => simp [mapStore, mapLookup, Ne.symm h]
  | cons head rest ih =>
      obtain ⟨k0, old⟩ := head
      by_cases h2 : k0 = id
      · subst h2
        simp [mapStore, mapLookup, Ne.symm h]
      · simp [mapStore, mapLookup, h2, ih]

theorem Register_lookup_of_ne (d : Dispatcher) (id key : EventId) (listener : Listener)
    (h : key ≠ id) :
    mapLookup (d.Register id listener).listeners key = mapLookup d.listeners key := by
  cases h2 : mapLookup d.listeners id <;>
    simp [Dispatcher.Register, h2, mapLookup_mapStore_of_ne _ _ _ _ h]

/-! ### Claim theorems -/

/-- C1 (evaluation at the failing input): a configurator that calls
`ShouldWait(false, nil)` gets an `AsyncConfigError` back from that call, but
a Go configurator `func(*Config)` discards it, the config stays at its
default, and `NewDispatcher` — whose signature in the source has no error
result at all — returns a fully usable Dispatcher with the default
configuration.  The package's own test
`TestFailsToBuildADispatcherOnWrongConfig` expects `NewDispatcher` to return
an `*AsyncConfigError` here instead. -/
theorem newDispatcher_ignores_shouldWait_error :
    (newDefaultConfig.ShouldWait false none).2 =
        some (newAsyncConfigError asyncConfigErrorText)
    ∧ NewDispatcher [[ConfigOp.shouldWait false none]] initialState =
        ({ listeners := [], config := newDefaultConfig, waitGroup := .internal 0 },
          { facade := none, nextWaitGroup := 1 }) :=
  ⟨rfl, rfl⟩

/-- C3: for every configuration, whatever its current wait fields,
`ShouldWait(false, nil)` returns an `AsyncConfigError` and leaves the
receiver exactly as it was (no partial update on failure). -/
theorem shouldWait_false_nil_rejects (config : Config) :
    config.ShouldWait false none =
      (config, some (newAsyncConfigError asyncConfigErrorText)) := rfl

/-- C4: `ShouldWait(true, nil)`, `ShouldWait(true, wg)` and
`ShouldWait(false, wg)` (non-nil `wg`) all succeed (nil error) and store both
wait fields together, overwriting whatever handle was stored before. -/
theorem shouldWait_success_updates (config : Config) (wg : WaitGroup) :
    config.ShouldWait true none =
        ({ config with shouldWait := true, waitGroup := none }, none)
    ∧ config.ShouldWait true (some wg) =
        ({ config with shouldWait := true, waitGroup := some wg }, none)
    ∧ config.ShouldWait false (some wg) =
        ({ config with shouldWait := false, waitGroup := some wg }, none) :=
  ⟨rfl, rfl, rfl⟩

/-- C9: the payload round-trips through the event unchanged:
`Make(id, p).Get() = p` for every id and every payload. -/
theorem make_get_roundtrip {α : Type} (id : EventId) (p : α) :
    (Make id p).Get = p := rfl

/-- C5: dispatching an event whose id is absent from the listener map, or
mapped to an empty list, returns the dispatcher unchanged with an empty
trace: no listener runs, nothing panics, and the listener map, config and
WaitGroup of the result are those of the input. -/
theorem dispatch_unregistered_noop {α : Type} (d : Dispatcher) (event : Event α)
    (h : mapLookup d.listeners event.id = none ∨ mapLookup d.listeners event.id = some []) :
    d.Dispatch event = (d, []) := by
  rcases h with h | h <;> simp [Dispatcher.Dispatch, h]

theorem dispatch_unregistered_noop_witness :
    mapLookup (NewDispatcher [] initialState).1.listeners eventA = none
    ∧ (NewDispatcher [] initialState).1.Dispatch (Make eventA (7 : Nat)) =
        ((NewDispatcher [] initialState).1, []) :=
  ⟨rfl, dispatch_unregistered_noop _ _ (Or.inl rfl)⟩

/-- C2: on a dispatcher with `isAsync = false` and no previous listener under
`id`, registering the listeners `ls` in order and then dispatching one event
with that id produces exactly one synchronous invocation per registered
listener, in registration order, each receiving the dispatched event, and
hands back the same dispatcher. -/
theorem dispatch_sync_in_order {α : Type} (d : Dispatcher) (id : EventId)
    (ls : List Listener) (p : α)
    (hasync : d.config.isAsync = false)
    (hfresh : mapLookup d.listeners id = none) :
    (d.registerAll id ls).Dispatch (Make id p) =
      (d.registerAll id ls,
        ls.map fun listener => TraceEntry.invoke listener (Make id p)) := by
  cases ls with
  | nil => simp [Dispatcher.registerAll, Dispatcher.Dispatch, Make, hfresh]
  | cons l rest =>
      have hlk : mapLookup (d.registerAll id (l :: rest)).listeners id = some (l :: rest) := by
        have h3 := registerAll_lookup_of_none id (l :: rest) d hfresh
        simpa using h3
      have hcfg : (d.registerAll id (l :: rest)).config.isAsync = false := by
        rw [registerAll_config]
        exact hasync
      simp [Dispatcher.Dispatch, Make, hlk, hcfg]

theorem dispatch_sync_in_order_witness :
    (NewDispatcher [] initialState).1.config.isAsync = false
    ∧ mapLookup (NewDispatcher [] initialState).1.listeners eventA = none
    ∧ ((NewDispatcher [] initialState).1.registerAll eventA [0, 1, 0]).Dispatch
          (Make eventA (7 : Nat)) =
        ((NewDispatcher [] initialState).1.registerAll eventA [0, 1, 0],
          [.invoke 0 (Make eventA 7), .invoke 1 (Make eventA 7), .invoke 0 (Make eventA 7)]) :=
  ⟨rfl, rfl, dispatch_sync_in_order _ _ _ _ rfl rfl⟩

/-- C6: while the facade slot is empty the package-level `Register` and
`Dispatch` panic with the diagnostic "No facade registered"; when the slot
holds a dispatcher each call returns exactly what calling that dispatcher's
method directly returns (with the slot still pointing at the dispatcher it
mutated). -/
theorem facade_calls_delegate {α : Type} (st : PkgState) (id : EventId)
    (listener : Listener) (event : Event α) :
    (st.facade = none →
        Register st id listener = .panicked noFacadeMessage
        ∧ Dispatch st event = .panicked noFacadeMessage)
    ∧ ∀ d : Dispatcher, st.facade = some d →
        Register st id listener =
            .ok (d.Register id listener, { st with facade := some (d.Register id listener) })
        ∧ Dispatch st event =
            .ok (d.Dispatch event, { st with facade := some (d.Dispatch event).1 }) := by
  constructor
  · intro h
    constructor <;> simp [Register, Dispatch, h]
  · intro d h
    constructor <;> simp [Register, Dispatch, h]

theorem facade_calls_delegate_witness :
    (Register initialState eventA 0 = GoResult.panicked noFacadeMessage
      ∧ Dispatch initialState (Make eventA (7 : Nat)) = GoResult.panicked noFacadeMessage)
    ∧ Register { facade := some (NewDispatcher [] initialState).1, nextWaitGroup := 1 }
          eventA 0 =
        GoResult.ok ((NewDispatcher [] initialState).1.Register eventA 0,
          { facade := some ((NewDispatcher [] initialState).1.Register eventA 0),
            nextWaitGroup := 1 }) :=
  ⟨(facade_calls_delegate initialState eventA 0 (Make eventA (7 : Nat))).1 rfl,
    ((facade_calls_delegate
        { facade := some (NewDispatcher [] initialState).1, nextWaitGroup := 1 }
        eventA 0 (Make eventA (7 : Nat))).2 _ rfl).1⟩

/-- C7: every `NewDispatcher` call succeeds, and afterwards: with
`isFacade = true` in the final config the facade slot holds exactly the new
dispatcher (replacing any previous occupant); with `isFacade = false` the
slot is exactly what it was before the call. -/
theorem newDispatcher_facade_slot (configurers : List Configurer) (st : PkgState) :
    ((NewDispatcher configurers st).1.config.isFacade = true →
        (NewDispatcher configurers st).2.facade = some (NewDispatcher configurers st).1)
    ∧ ((NewDispatcher configurers st).1.config.isFacade = false →
        (NewDispatcher configurers st).2.facade = st.facade) := by
  unfold NewDispatcher
  cases hwg : (newDefaultConfig.applyConfigurers configurers).waitGroup <;>
    cases hf : (newDefaultConfig.applyConfigurers configurers).isFacade <;>
      simp [hwg, hf]

theorem newDispatcher_facade_slot_witness :
    ((NewDispatcher [[ConfigOp.asFacade true]] initialState).1.config.isFacade = true
      ∧ (NewDispatcher [[ConfigOp.asFacade true]] initialState).2.facade =
          some (NewDispatcher [[ConfigOp.asFacade true]] initialState).1)
    ∧ ((NewDispatcher [] initialState).1.config.isFacade = false
      ∧ (NewDispatcher [] initialState).2.facade = initialState.facade) :=
  ⟨⟨rfl, (newDispatcher_facade_slot [[ConfigOp.asFacade true]] initialState).1 rfl⟩,
    ⟨rfl, (newDispatcher_facade_slot [] initialState).2 rfl⟩⟩

/-- C8: `NewDispatcher` with no configurators cannot fail (its type has no
error to return) and yields the empty listener map, the default
configuration `{isAsync := false, isFacade := false, shouldWait := true,
waitGroup := none}`, and a freshly allocated internal WaitGroup; in general,
whenever the final config's `waitGroup` is still nil the dispatcher receives
the internal handle numbered by the allocator — distinct from every
caller-supplied external handle and from every internal handle allocated
before — and otherwise it receives exactly the externally supplied one. -/
theorem newDispatcher_default_and_fresh_waitGroup
    (configurers : List Configurer) (st : PkgState) :
    NewDispatcher [] st =
        ({ listeners := [], config := newDefaultConfig,
            waitGroup := .internal st.nextWaitGroup },
          { st with nextWaitGroup := st.nextWaitGroup + 1 })
    ∧ ((newDefaultConfig.applyConfigurers configurers).waitGroup = none →
        (NewDispatcher configurers st).1.waitGroup = .internal st.nextWaitGroup
        ∧ (NewDispatcher configurers st).2.nextWaitGroup = st.nextWaitGroup + 1
        ∧ (∀ n, WaitGroup.internal st.nextWaitGroup ≠ .external n)
        ∧ ∀ k, k < st.nextWaitGroup → WaitGroup.internal st.nextWaitGroup ≠ .internal k)
    ∧ ∀ wg, (newDefaultConfig.applyConfigurers configurers).waitGroup = some wg →
        (NewDispatcher configurers st).1.waitGroup = wg := by
  refine ⟨rfl, ?_, ?_⟩
  · intro h
    refine ⟨?_, ?_, ?_, ?_⟩
    · simp [NewDispatcher, h]
    · cases hf : (newDefaultConfig.applyConfigurers configurers).isFacade <;>
        simp [NewDispatcher, h, hf]
    · intro n hn
      cases hn
    · intro k hk hn
      rw [WaitGroup.internal.injEq] at hn
      omega
  · intro wg h
    simp [NewDispatcher, h]

theorem newDispatcher_default_and_fresh_waitGroup_witness :
    (newDefaultConfig.applyConfigurers []).waitGroup = none
    ∧ (NewDispatcher [] initialState).1.waitGroup = WaitGroup.internal 0
    ∧ (newDefaultConfig.applyConfigurers
          [[ConfigOp.shouldWait false (some (WaitGroup.external 5))]]).waitGroup =
        some (WaitGroup.external 5)
    ∧ (NewDispatcher [[ConfigOp.shouldWait false (some (WaitGroup.external 5))]]
          initialState).1.waitGroup = WaitGroup.external 5 :=
  ⟨rfl,
    ((newDispatcher_default_and_fresh_waitGroup [] initialState).2.1 rfl).1,
    rfl,
    (newDispatcher_default_and_fresh_waitGroup
        [[ConfigOp.shouldWait false (some (WaitGroup.external 5))]] initialState).2.2
      (WaitGroup.external 5) rfl⟩

/-- C10: every dispatcher reachable through the public operations maps each
event id present in its listener map to a non-empty listener list; hence the
length-zero early-return branch of `Dispatch` can never fire on a reachable
dispatcher, and a missing map entry is the only way an id has no
listeners. -/
theorem reachable_listener_lists_nonempty (d : Dispatcher) (h : Reachable d)
    (id : EventId) (ls : List Listener)
    (hlk : mapLookup d.listeners id = some ls) : ls ≠ [] := by
  induction h generalizing id ls with
  | new configurers st =>
      rw [newDispatcher_listeners] at hlk
      simp [mapLookup] at hlk
  | register d0 id0 listener _ ih =>
      by_cases hid : id = id0
      · subst hid
        rw [Register_lookup_self] at hlk
        obtain rfl : ls = (mapLookup d0.listeners id).getD [] ++ [listener] :=
          (Option.some.injEq _ _).mp hlk.symm
        simp
      · rw [Register_lookup_of_ne d0 id0 id listener hid] at hlk
        exact ih id ls hlk
  | dispatch d0 event _ ih =>
      rw [Dispatch_fst] at hlk
      exact ih id ls hlk

theorem reachable_listener_lists_nonempty_witness :
    Reachable ((NewDispatcher [] initialState).1.Register eventA 0)
    ∧ mapLookup ((NewDispatcher [] initialState).1.Register eventA 0).listeners eventA =
        some [0]
    ∧ [0] ≠ ([] : List Listener) :=
  ⟨.register (NewDispatcher [] initialState).1 eventA 0 (.new [] initialState), by decide,
    reachable_listener_lists_nonempty _
      (.register (NewDispatcher [] initialState).1 eventA 0 (.new [] initialState))
      eventA [0] (by decide)⟩

end Events
